import Mathlib

/-!
Shallow embedding of the `goldbug` signing gateway
(`src/packages/signer/app.py`): a FastAPI service that validates order
requests, derives a per-request signing identity and relays signed
actions to the Hyperliquid venue.

Modelling conventions:
* Python `float` payload fields carry no arithmetic in this code (they are
  passed through to the venue), so they are embedded as `ℚ`.
* Python truthiness of `Optional[str]` (`None` and `""` are falsy) is made
  explicit via `pyTruthy`.
* The external venue SDK (`hyperliquid.exchange.Exchange`) is represented
  by the record of constructor arguments the code passes (`Exchange`) and
  by the method call it performs (`VenueCall`); the network transport is a
  parameter `venue : Exchange → VenueCall → R`, so a handler's result is
  literally the transport's return value on the success path.
* `eth_account.Account.from_key` is deterministic in the key string, so the
  wallet is represented by the key material handed to it.
* Pydantic/FastAPI validate the request body before the endpoint function
  runs; this is embedded as a `parse` step preceding each handler.
-/

namespace Signer

/-- Process configuration, read from the environment at startup
(`API_URL`, `TRADING_ASSET`, `SIGNER_API_KEY`, `BUILDER_ADDRESS`,
`BUILDER_FEE_BPS` in `app.py`). `SIGNER_API_KEY` has no default, hence
`Option String`. -/
structure Config where
  apiUrl : String
  tradingAsset : String
  signerApiKey : Option String
  builderAddress : String
  builderFeeBps : Int
deriving DecidableEq, Repr

/-- Error outcomes of a request: pydantic validation failure (HTTP 422)
or a raised `HTTPException` with an explicit status and detail. -/
inductive HError where
  | validationError
  | httpException (status : Nat) (detail : String)
deriving DecidableEq, Repr

/-- HTTP status code of an error outcome. -/
def HError.status : HError → Nat
  | .validationError => 422
  | .httpException s _ => s

/-- Python truthiness of an `Optional[str]`: `None` and `""` are falsy. -/
def pyTruthy : Option String → Bool
  | none => false
  | some s => s != ""

/-- `parse_dex`: if `":" in asset`, return `asset.split(":", 1)[0]`
(the characters before the first colon), else `None`. -/
def parse_dex (asset : String) : Option String :=
  if asset.data.contains ':' then some ⟨asset.data.takeWhile (fun c => c != ':')⟩
  else none

/-- `PERP_DEX = parse_dex(TRADING_ASSET)`, computed once at module load. -/
def PERP_DEX (cfg : Config) : Option String :=
  parse_dex cfg.tradingAsset

/-- Fee-share ("builder") config: `{"b": ..., "f": ...}`. -/
structure BuilderConfig where
  b : String
  f : Int
deriving DecidableEq, Repr

/-- `get_builder`: the builder fee config if enabled, else `None`.
Enabled iff `BUILDER_ADDRESS` is truthy (nonempty) and differs from the
documented placeholder. -/
def get_builder (cfg : Config) : Option BuilderConfig :=
  if cfg.builderAddress != "" && cfg.builderAddress != "0x...your_builder_wallet_address" then
    some { b := cfg.builderAddress.toLower, f := cfg.builderFeeBps }
  else none

/-- `ensure_hex_prefix`: `key if key.startswith("0x") else "0x" + key`;
`key.startswith("0x")` is embedded as a character-list prefix test. -/
def ensure_hex_prefix (key : String) : String :=
  if List.isPrefixOf ['0', 'x'] key.data then key else "0x" ++ key

/-- `require_api_key`: raises 401 iff `SIGNER_API_KEY` is truthy and the
supplied header (an `Optional[str]`) differs from it. -/
def require_api_key (cfg : Config) (x_signer_api_key : Option String) : Except HError Unit :=
  if pyTruthy cfg.signerApiKey && (x_signer_api_key != cfg.signerApiKey) then
    .error (.httpException 401 "Invalid signer API key")
  else
    .ok ()

/-- The argument record of the `Exchange(...)` constructor call in
`get_exchange`. `wallet` is the key string handed to `Account.from_key`;
`vault_address` is not passed by the code, so it holds the SDK default
`None`. -/
structure Exchange where
  wallet : String
  base_url : String
  account_address : String
  perp_dexs : Option (List String)
  timeout : Nat
  vault_address : Option String
deriving DecidableEq, Repr

/-- `get_exchange`: normalize the key, lower-case the wallet address, and
build the venue client. `if PERP_DEX:` is Python truthiness, so an empty
derived namespace leaves `perp_dexs = None`. -/
def get_exchange (cfg : Config) (agent_private_key : String) (wallet_address : String) :
    Exchange :=
  let key := ensure_hex_prefix agent_private_key
  let account_address := wallet_address.toLower
  let perp_dexs : Option (List String) :=
    match PERP_DEX cfg with
    | some d => if d != "" then some ["", d] else none
    | none => none
  { wallet := key
    base_url := cfg.apiUrl
    account_address := account_address
    perp_dexs := perp_dexs
    timeout := 30
    vault_address := none }

/-- A JSON-ish payload field value, as pydantic sees it. -/
inductive JVal where
  | s (v : String)
  | i (v : Int)
  | f (v : ℚ)
  | b (v : Bool)
deriving DecidableEq, Repr

/-- Required `str` field with `min_length`: present strings of sufficient
length pass; wrong type or absence is a validation error (pydantic v2 does
not coerce non-strings to `str`). -/
def fieldStr (minLen : Nat) : Option JVal → Except HError String
  | some (.s v) => if minLen ≤ v.length then .ok v else .error .validationError
  | some _ => .error .validationError
  | none => .error .validationError

/-- Optional `str` field with a default. -/
def fieldStrD (d : String) : Option JVal → Except HError String
  | none => .ok d
  | some (.s v) => .ok v
  | some _ => .error .validationError

/-- Required `bool` field. -/
def fieldBool : Option JVal → Except HError Bool
  | some (.b v) => .ok v
  | some _ => .error .validationError
  | none => .error .validationError

/-- Optional `bool` field with a default. -/
def fieldBoolD (d : Bool) : Option JVal → Except HError Bool
  | none => .ok d
  | some (.b v) => .ok v
  | some _ => .error .validationError

/-- Required `float` field (accepts ints, numbers). -/
def fieldFloat : Option JVal → Except HError ℚ
  | some (.f v) => .ok v
  | some (.i v) => .ok (v : ℚ)
  | some _ => .error .validationError
  | none => .error .validationError

/-- Optional `float` field with a default. -/
def fieldFloatD (d : ℚ) : Option JVal → Except HError ℚ
  | none => .ok d
  | some (.f v) => .ok v
  | some (.i v) => .ok (v : ℚ)
  | some _ => .error .validationError

/-- `Optional[float] = None` field. -/
def fieldFloatOpt : Option JVal → Except HError (Option ℚ)
  | none => .ok none
  | some (.f v) => .ok (some v)
  | some (.i v) => .ok (some (v : ℚ))
  | some _ => .error .validationError

/-- Required `int` field. -/
def fieldInt : Option JVal → Except HError Int
  | some (.i v) => .ok v
  | some _ => .error .validationError
  | none => .error .validationError

/-- `BaseRequest`: the validated common fields. -/
structure BaseRequest where
  agent_private_key : String
  wallet_address : String
deriving DecidableEq, Repr

/-- Raw (pre-validation) common fields; `none` is an absent field. -/
structure RawBase where
  agent_private_key : Option JVal := none
  wallet_address : Option JVal := none
deriving DecidableEq, Repr

/-- Validation of `BaseRequest`: `agent_private_key` min length 32,
`wallet_address` min length 40. -/
def BaseRequest.parse (r : RawBase) : Except HError BaseRequest := do
  let k ← fieldStr 32 r.agent_private_key
  let w ← fieldStr 40 r.wallet_address
  pure { agent_private_key := k, wallet_address := w }

/-- `UpdateLeverageRequest`. -/
structure UpdateLeverageRequest extends BaseRequest where
  coin : String
  leverage : Int
  is_cross : Bool
deriving DecidableEq, Repr

structure RawUpdateLeverage extends RawBase where
  coin : Option JVal := none
  leverage : Option JVal := none
  is_cross : Option JVal := none
deriving DecidableEq, Repr

def UpdateLeverageRequest.parse (r : RawUpdateLeverage) : Except HError UpdateLeverageRequest := do
  let base ← BaseRequest.parse r.toRawBase
  let coin ← fieldStr 0 r.coin
  let leverage ← fieldInt r.leverage
  let is_cross ← fieldBoolD false r.is_cross
  pure { toBaseRequest := base, coin := coin, leverage := leverage, is_cross := is_cross }

/-- `LimitOrderRequest`. -/
structure LimitOrderRequest extends BaseRequest where
  coin : String
  is_buy : Bool
  size : ℚ
  limit_px : ℚ
  tif : String
  reduce_only : Bool
deriving DecidableEq, Repr

structure RawLimitOrder extends RawBase where
  coin : Option JVal := none
  is_buy : Option JVal := none
  size : Option JVal := none
  limit_px : Option JVal := none
  tif : Option JVal := none
  reduce_only : Option JVal := none
deriving DecidableEq, Repr

def LimitOrderRequest.parse (r : RawLimitOrder) : Except HError LimitOrderRequest := do
  let base ← BaseRequest.parse r.toRawBase
  let coin ← fieldStr 0 r.coin
  let is_buy ← fieldBool r.is_buy
  let size ← fieldFloat r.size
  let limit_px ← fieldFloat r.limit_px
  let tif ← fieldStrD "Gtc" r.tif
  let reduce_only ← fieldBoolD false r.reduce_only
  pure { toBaseRequest := base, coin := coin, is_buy := is_buy, size := size,
         limit_px := limit_px, tif := tif, reduce_only := reduce_only }

/-- `MarketOrderRequest`. -/
structure MarketOrderRequest extends BaseRequest where
  coin : String
  is_buy : Bool
  size : ℚ
  slippage : ℚ
  px : Option ℚ
deriving DecidableEq, Repr

structure RawMarketOrder extends RawBase where
  coin : Option JVal := none
  is_buy : Option JVal := none
  size : Option JVal := none
  slippage : Option JVal := none
  px : Option JVal := none
deriving DecidableEq, Repr

def MarketOrderRequest.parse (r : RawMarketOrder) : Except HError MarketOrderRequest := do
  let base ← BaseRequest.parse r.toRawBase
  let coin ← fieldStr 0 r.coin
  let is_buy ← fieldBool r.is_buy
  let size ← fieldFloat r.size
  let slippage ← fieldFloatD (1/100) r.slippage
  let px ← fieldFloatOpt r.px
  pure { toBaseRequest := base, coin := coin, is_buy := is_buy, size := size,
         slippage := slippage, px := px }

/-- `MarketCloseRequest`: `size` is optional (`None` means close the full
position, delegated to the venue). -/
structure MarketCloseRequest extends BaseRequest where
  coin : String
  size : Option ℚ
  slippage : ℚ
  px : Option ℚ
deriving DecidableEq, Repr

structure RawMarketClose extends RawBase where
  coin : Option JVal := none
  size : Option JVal := none
  slippage : Option JVal := none
  px : Option JVal := none
deriving DecidableEq, Repr

def MarketCloseRequest.parse (r : RawMarketClose) : Except HError MarketCloseRequest := do
  let base ← BaseRequest.parse r.toRawBase
  let coin ← fieldStr 0 r.coin
  let size ← fieldFloatOpt r.size
  let slippage ← fieldFloatD (1/100) r.slippage
  let px ← fieldFloatOpt r.px
  pure { toBaseRequest := base, coin := coin, size := size, slippage := slippage, px := px }

/-- `CancelOrderRequest`. -/
structure CancelOrderRequest extends BaseRequest where
  coin : String
  oid : Int
deriving DecidableEq, Repr

structure RawCancelOrder extends RawBase where
  coin : Option JVal := none
  oid : Option JVal := none
deriving DecidableEq, Repr

def CancelOrderRequest.parse (r : RawCancelOrder) : Except HError CancelOrderRequest := do
  let base ← BaseRequest.parse r.toRawBase
  let coin ← fieldStr 0 r.coin
  let oid ← fieldInt r.oid
  pure { toBaseRequest := base, coin := coin, oid := oid }

/-- The `{"limit": {"tif": ...}}` order-type dict. -/
structure LimitTif where
  tif : String
deriving DecidableEq, Repr

structure OrderType where
  limit : LimitTif
deriving DecidableEq, Repr

/-- A method call on the venue SDK client, with the exact arguments the
handlers pass. -/
inductive VenueCall where
  | update_leverage (leverage : Int) (name : String) (is_cross : Bool)
  | order (name : String) (is_buy : Bool) (sz : ℚ) (limit_px : ℚ)
      (order_type : OrderType) (reduce_only : Bool) (builder : Option BuilderConfig)
  | market_open (name : String) (is_buy : Bool) (sz : ℚ) (px : Option ℚ)
      (slippage : ℚ) (builder : Option BuilderConfig)
  | market_close (name : String) (sz : Option ℚ) (px : Option ℚ)
      (slippage : ℚ) (builder : Option BuilderConfig)
  | cancel (name : String) (oid : Int)
  | agent_enable_dex_abstraction
deriving DecidableEq, Repr

/-- The builder argument of an order-placing call (`some` for the three
order-placing methods, `none` for the rest). -/
def VenueCall.builderOf : VenueCall → Option (Option BuilderConfig)
  | .order _ _ _ _ _ _ bld => some bld
  | .market_open _ _ _ _ _ bld => some bld
  | .market_close _ _ _ _ bld => some bld
  | _ => none

/-- The `sz` argument of a `market_close` call. -/
def VenueCall.closeSizeOf : VenueCall → Option (Option ℚ)
  | .market_close _ sz _ _ _ => some sz
  | _ => none

/-- Endpoint body of `POST /l1/update_leverage` (after body validation). -/
def update_leverage {R : Type} (cfg : Config) (venue : Exchange → VenueCall → R)
    (req : UpdateLeverageRequest) (x_signer_api_key : Option String) : Except HError R := do
  require_api_key cfg x_signer_api_key
  let exchange := get_exchange cfg req.agent_private_key req.wallet_address
  pure (venue exchange (.update_leverage req.leverage req.coin req.is_cross))

/-- Endpoint body of `POST /l1/order` (after body validation). -/
def limit_order {R : Type} (cfg : Config) (venue : Exchange → VenueCall → R)
    (req : LimitOrderRequest) (x_signer_api_key : Option String) : Except HError R := do
  require_api_key cfg x_signer_api_key
  let exchange := get_exchange cfg req.agent_private_key req.wallet_address
  let order_type : OrderType := { limit := { tif := req.tif } }
  let builder := get_builder cfg
  pure (venue exchange
    (.order req.coin req.is_buy req.size req.limit_px order_type req.reduce_only builder))

/-- Endpoint body of `POST /l1/market_open` (after body validation). -/
def market_open {R : Type} (cfg : Config) (venue : Exchange → VenueCall → R)
    (req : MarketOrderRequest) (x_signer_api_key : Option String) : Except HError R := do
  require_api_key cfg x_signer_api_key
  let exchange := get_exchange cfg req.agent_private_key req.wallet_address
  let builder := get_builder cfg
  pure (venue exchange (.market_open req.coin req.is_buy req.size req.px req.slippage builder))

/-- Endpoint body of `POST /l1/market_close` (after body validation). -/
def market_close {R : Type} (cfg : Config) (venue : Exchange → VenueCall → R)
    (req : MarketCloseRequest) (x_signer_api_key : Option String) : Except HError R := do
  require_api_key cfg x_signer_api_key
  let exchange := get_exchange cfg req.agent_private_key req.wallet_address
  let builder := get_builder cfg
  pure (venue exchange (.market_close req.coin req.size req.px req.slippage builder))

/-- Endpoint body of `POST /l1/cancel` (after body validation). -/
def cancel {R : Type} (cfg : Config) (venue : Exchange → VenueCall → R)
    (req : CancelOrderRequest) (x_signer_api_key : Option String) : Except HError R := do
  require_api_key cfg x_signer_api_key
  let exchange := get_exchange cfg req.agent_private_key req.wallet_address
  pure (venue exchange (.cancel req.coin req.oid))

/-- Endpoint body of `POST /l1/enable_dex` (after body validation). -/
def enable_dex_abstraction {R : Type} (cfg : Config) (venue : Exchange → VenueCall → R)
    (req : BaseRequest) (x_signer_api_key : Option String) : Except HError R := do
  require_api_key cfg x_signer_api_key
  let exchange := get_exchange cfg req.agent_private_key req.wallet_address
  pure (venue exchange .agent_enable_dex_abstraction)

/-- Full `POST /l1/update_leverage` route: FastAPI body validation, then
the endpoint body. -/
def handle_update_leverage {R : Type} (cfg : Config) (venue : Exchange → VenueCall → R)
    (raw : RawUpdateLeverage) (hdr : Option String) : Except HError R := do
  let req ← UpdateLeverageRequest.parse raw
  update_leverage cfg venue req hdr

/-- Full `POST /l1/order` route. -/
def handle_order {R : Type} (cfg : Config) (venue : Exchange → VenueCall → R)
    (raw : RawLimitOrder) (hdr : Option String) : Except HError R := do
  let req ← LimitOrderRequest.parse raw
  limit_order cfg venue req hdr

/-- Full `POST /l1/market_open` route. -/
def handle_market_open {R : Type} (cfg : Config) (venue : Exchange → VenueCall → R)
    (raw : RawMarketOrder) (hdr : Option String) : Except HError R := do
  let req ← MarketOrderRequest.parse raw
  market_open cfg venue req hdr

/-- Full `POST /l1/market_close` route. -/
def handle_market_close {R : Type} (cfg : Config) (venue : Exchange → VenueCall → R)
    (raw : RawMarketClose) (hdr : Option String) : Except HError R := do
  let req ← MarketCloseRequest.parse raw
  market_close cfg venue req hdr

/-- Full `POST /l1/cancel` route. -/
def handle_cancel {R : Type} (cfg : Config) (venue : Exchange → VenueCall → R)
    (raw : RawCancelOrder) (hdr : Option String) : Except HError R := do
  let req ← CancelOrderRequest.parse raw
  cancel cfg venue req hdr

/-- Full `POST /l1/enable_dex` route. -/
def handle_enable_dex {R : Type} (cfg : Config) (venue : Exchange → VenueCall → R)
    (raw : RawBase) (hdr : Option String) : Except HError R := do
  let req ← BaseRequest.parse raw
  enable_dex_abstraction cfg venue req hdr

/-! Concrete fixtures used by witnesses and counterexamples. -/

/-- Configuration with no API key and no fee-share recipient. -/
def cfgOpen : Config :=
  { apiUrl := "https://api.hyperliquid.xyz", tradingAsset := "xyz:GOLD",
    signerApiKey := none, builderAddress := "", builderFeeBps := 100 }

/-- Configuration with a shared API key. -/
def cfgAuth : Config := { cfgOpen with signerApiKey := some "secret" }

/-- Configuration whose API key is set to the empty string. -/
def cfgEmptyKey : Config := { cfgOpen with signerApiKey := some "" }

/-- Configuration whose trading asset begins with a colon. -/
def cfgColon : Config := { cfgOpen with tradingAsset := ":GOLD" }

/-- Configuration with a real fee-share recipient. -/
def cfgBuilder : Config :=
  { cfgOpen with builderAddress := "0xABCdef0000000000000000000000000000000001" }

/-- Configuration whose fee-share recipient is the documented placeholder. -/
def cfgPlaceholder : Config :=
  { cfgOpen with builderAddress := "0x...your_builder_wallet_address" }

/-- A 64-character hex key without the `0x` marker. -/
def keyHex : String := "a1b2c3d4e5f6a7b8c9d0e1f2a3b4c5d6a1b2c3d4e5f6a7b8c9d0e1f2a3b4c5d6"

/-- A 42-character wallet address with mixed case. -/
def walletHex : String := "0xAbCdEf0123456789aBcDeF0123456789AbCdEf01"

/-- A raw payload body carrying valid base fields. -/
def rawBaseOk : RawBase :=
  { agent_private_key := some (.s keyHex), wallet_address := some (.s walletHex) }

def rawUL : RawUpdateLeverage :=
  { toRawBase := rawBaseOk, coin := some (.s "BTC"), leverage := some (.i 5) }

def rawLO : RawLimitOrder :=
  { toRawBase := rawBaseOk, coin := some (.s "BTC"), is_buy := some (.b true),
    size := some (.f (3/2)), limit_px := some (.f 50000) }

def rawMO : RawMarketOrder :=
  { toRawBase := rawBaseOk, coin := some (.s "BTC"), is_buy := some (.b true),
    size := some (.f 1) }

def rawMC : RawMarketClose :=
  { toRawBase := rawBaseOk, coin := some (.s "BTC") }

def rawCA : RawCancelOrder :=
  { toRawBase := rawBaseOk, coin := some (.s "BTC"), oid := some (.i 42) }

/-! Helper lemmas about the `Except` monad and the request pipeline. -/

@[simp] theorem ok_bind {ε α β : Type} (a : α) (f : α → Except ε β) :
    (Except.ok a >>= f) = f a := rfl

@[simp] theorem error_bind {ε α β : Type} (e : ε) (f : α → Except ε β) :
    ((Except.error e : Except ε α) >>= f) = .error e := rfl

@[simp] theorem pure_eq_ok {ε α : Type} (a : α) : (pure a : Except ε α) = .ok a := rfl

/-- Characters of a list before an appended colon, when the list itself is
colon-free. -/
theorem takeWhile_append_colon (l post : List Char) (h : ':' ∉ l) :
    (l ++ ':' :: post).takeWhile (fun c => c != ':') = l := by
  induction l with
  | nil => simp
  | cons c cs ih =>
    simp only [List.mem_cons, not_or] at h
    simp [List.takeWhile_cons, bne_iff_ne, Ne.symm h.1, ih h.2]

/-- C7: key normalization prefixes the hex marker exactly when it is absent,
leaves a key already carrying the marker unchanged, and is idempotent; hence
identity derivation from a key and from its normalized form yields the same
signing identity, in particular one bound to the same owner address. -/
theorem c7_key_normalization_idempotent (cfg : Config) (k a : String) :
    (List.isPrefixOf ['0', 'x'] k.data = false → ensure_hex_prefix k = "0x" ++ k) ∧
    (List.isPrefixOf ['0', 'x'] k.data = true → ensure_hex_prefix k = k) ∧
    ensure_hex_prefix ( ensure_hex_prefix k) = ensure_hex_prefix k ∧
    get_exchange cfg ( ensure_hex_prefix k) a = get_exchange cfg k a ∧
    (get_exchange cfg ( ensure_hex_prefix k) a).account_address =
      (get_exchange cfg k a).account_address := by
  have hidem : ensure_hex_prefix ( ensure_hex_prefix k) = ensure_hex_prefix k := by
    cases hp : List.isPrefixOf ['0', 'x'] k.data with
    | true => simp [ ensure_hex_prefix, hp]
    | false =>
      have h2 : List.isPrefixOf ['0', 'x'] (("0x" : String) ++ k).data = true := by
        simp [List.isPrefixOf]
      simp [ ensure_hex_prefix, hp, h2]
  have hex : get_exchange cfg ( ensure_hex_prefix k) a = get_exchange cfg k a := by
    simp only [get_exchange]
    rw [hidem]
  exact ⟨fun hp => by simp [ ensure_hex_prefix, hp],
    fun hp => by simp [ ensure_hex_prefix, hp], hidem, hex, by rw [hex]⟩

/-- C7 witness: normalization and identity derivation at concrete keys. -/
theorem c7_key_normalization_idempotent_witness :
    ensure_hex_prefix keyHex = "0x" ++ keyHex ∧
    ensure_hex_prefix ("0x" ++ keyHex) = "0x" ++ keyHex ∧
    ensure_hex_prefix ( ensure_hex_prefix keyHex) = ensure_hex_prefix keyHex ∧
    get_exchange cfgOpen ( ensure_hex_prefix keyHex) walletHex =
      get_exchange cfgOpen keyHex walletHex := by
  have h1 := c7_key_normalization_idempotent cfgOpen keyHex walletHex
  have h2 := c7_key_normalization_idempotent cfgOpen ("0x" ++ keyHex) walletHex
  exact ⟨h1.1 (by decide), h2.2.1 (by decide), h1.2.2.1, h1.2.2.2.1⟩

/-- C8: signing-identity construction binds the account of record to the
lower-cased caller-supplied owner address and never sets a vault trading
address. -/
theorem c8_account_address_binding (cfg : Config) (k a : String) :
    (get_exchange cfg k a).account_address = a.toLower ∧
    (get_exchange cfg k a).vault_address = none :=
  ⟨rfl, rfl⟩

/-- C9: with the shared API key configured as the empty string, the
authentication gate accepts every request regardless of the credential
header, identically to the no-key configuration, and never raises 401. -/
theorem c9_empty_api_key_open_mode (cfg : Config) (hdr : Option String)
    (h : cfg.signerApiKey = some "") :
    require_api_key cfg hdr = .ok () ∧
    require_api_key cfg hdr = require_api_key { cfg with signerApiKey := none } hdr := by
  constructor
  · simp [require_api_key, h, pyTruthy]
  · simp [require_api_key, h, pyTruthy]

/-- C9 witness at a concrete configuration and concrete headers. -/
theorem c9_empty_api_key_open_mode_witness :
    require_api_key cfgEmptyKey none = .ok () ∧
    require_api_key cfgEmptyKey (some "wrong") = .ok () :=
  ⟨(c9_empty_api_key_open_mode cfgEmptyKey none rfl).1,
    (c9_empty_api_key_open_mode cfgEmptyKey (some "wrong") rfl).1⟩

/-- C10: a trading asset spec beginning with a colon derives the empty
sub-venue namespace, and identity construction then passes no routing
list, exactly as when no namespace prefix is present. -/
theorem c10_empty_namespace_no_routing (cfg : Config) (k a rest : String)
    (h : cfg.tradingAsset = ":" ++ rest) :
    PERP_DEX cfg = some "" ∧ (get_exchange cfg k a).perp_dexs = none := by
  have hpd : PERP_DEX cfg = some "" := by
    unfold PERP_DEX
    rw [h]
    rfl
  exact ⟨hpd, by simp [get_exchange, hpd]⟩

/-- C10 witness: the concrete asset spec ":GOLD". -/
theorem c10_empty_namespace_no_routing_witness :
    PERP_DEX cfgColon = some "" ∧
    (get_exchange cfgColon keyHex walletHex).perp_dexs = none :=
  c10_empty_namespace_no_routing cfgColon keyHex walletHex "GOLD" rfl

/-- C4 counterexample: with trading asset ":GOLD" a sub-venue namespace is
derived (the empty string), yet identity construction passes no routing
list, refuting the claim that every derived namespace d yields the routing
list ["", d]. -/
theorem c4_counterexample :
    PERP_DEX cfgColon = some "" ∧
    (get_exchange cfgColon keyHex walletHex).perp_dexs ≠ some ["", ""] := by
  constructor
  · rfl
  · intro hcon
    simp [get_exchange, show PERP_DEX cfgColon = some "" from rfl] at hcon

/-- C4 (amended): sub-venue derivation splits the trading asset spec on its
first colon (no colon means no sub-venue); when a nonempty namespace d was
derived, identity construction passes the routing list ["", d]; when no
namespace or the empty namespace was derived, it passes no routing list. -/
theorem c4_sub_venue_routing (cfg : Config) (k a : String) :
    (∀ pre post : String, ':' ∉ pre.data →
        parse_dex ((pre ++ ":") ++ post) = some pre) ∧
    (∀ asset : String, ':' ∉ asset.data → parse_dex asset = none) ∧
    (∀ d, PERP_DEX cfg = some d → d ≠ "" →
        (get_exchange cfg k a).perp_dexs = some ["", d]) ∧
    ((PERP_DEX cfg = none ∨ PERP_DEX cfg = some "") →
        (get_exchange cfg k a).perp_dexs = none) := by
  refine ⟨?_, ?_, ?_, ?_⟩
  · intro pre post hpre
    have hdata : ((pre ++ ":") ++ post).data = pre.data ++ ':' :: post.data := by
      show (pre.data ++ [':']) ++ post.data = pre.data ++ ':' :: post.data
      simp
    unfold parse_dex
    rw [hdata]
    simp [takeWhile_append_colon _ _ hpre]
  · intro asset hasset
    simp [parse_dex, hasset]
  · intro d hd hne
    have hb : (d != "") = true := bne_iff_ne.mpr hne
    simp [get_exchange, hd, hb]
  · rintro (hd | hd) <;> simp [get_exchange, hd]

/-- C4 witness: concrete splits and routing at assets "xyz:GOLD", "GOLD"
and ":GOLD". -/
theorem c4_sub_venue_routing_witness :
    parse_dex (("xyz" ++ ":") ++ "GOLD") = some "xyz" ∧
    parse_dex "GOLD" = none ∧
    (get_exchange cfgOpen keyHex walletHex).perp_dexs = some ["", "xyz"] ∧
    (get_exchange cfgColon keyHex walletHex).perp_dexs = none := by
  have h1 := c4_sub_venue_routing cfgOpen keyHex walletHex
  have h2 := c4_sub_venue_routing cfgColon keyHex walletHex
  exact ⟨h1.1 "xyz" "GOLD" (by decide), h1.2.1 "GOLD" (by decide),
    h1.2.2.1 "xyz" rfl (by decide), h2.2.2.2 (Or.inr rfl)⟩

/-- Pydantic rejection condition for a required string field with a minimum
length: the field is absent, has a non-string value, or is a string shorter
than the minimum. -/
def badStrField (minLen : Nat) : Option JVal → Bool
  | none => true
  | some (.s v) => decide (v.length < minLen)
  | some _ => true

theorem fieldStr_bad (minLen : Nat) (f : Option JVal)
    (h : badStrField minLen f = true) :
    fieldStr minLen f = .error .validationError := by
  match f with
  | none => rfl
  | some (.s v) =>
    simp only [badStrField, decide_eq_true_eq] at h
    simp [fieldStr, Nat.not_le.mpr h]
  | some (.i v) => rfl
  | some (.f v) => rfl
  | some (.b v) => rfl

theorem fieldStr_good (minLen : Nat) (f : Option JVal)
    (h : badStrField minLen f = false) :
    ∃ v, fieldStr minLen f = .ok v := by
  match f with
  | none => simp [badStrField] at h
  | some (.s v) =>
    simp only [badStrField, decide_eq_false_iff_not, Nat.not_lt] at h
    exact ⟨v, by simp [fieldStr, h]⟩
  | some (.i v) => simp [badStrField] at h
  | some (.f v) => simp [badStrField] at h
  | some (.b v) => simp [badStrField] at h

theorem base_parse_bad (r : RawBase)
    (h : (badStrField 32 r.agent_private_key || badStrField 40 r.wallet_address) = true) :
    BaseRequest.parse r = .error .validationError := by
  rw [Bool.or_eq_true] at h
  rcases h with h1 | h2
  · simp [BaseRequest.parse, fieldStr_bad _ _ h1]
  · cases hk : badStrField 32 r.agent_private_key with
    | true => simp [BaseRequest.parse, fieldStr_bad _ _ hk]
    | false =>
      obtain ⟨v, hv⟩ := fieldStr_good 32 _ hk
      simp [BaseRequest.parse, hv, fieldStr_bad _ _ h2]

theorem update_leverage_parse_bad (r : RawUpdateLeverage)
    (h : (badStrField 32 r.agent_private_key || badStrField 40 r.wallet_address) = true) :
    UpdateLeverageRequest.parse r = .error .validationError := by
  simp [UpdateLeverageRequest.parse, base_parse_bad _ h]

theorem limit_order_parse_bad (r : RawLimitOrder)
    (h : (badStrField 32 r.agent_private_key || badStrField 40 r.wallet_address) = true) :
    LimitOrderRequest.parse r = .error .validationError := by
  simp [LimitOrderRequest.parse, base_parse_bad _ h]

theorem market_order_parse_bad (r : RawMarketOrder)
    (h : (badStrField 32 r.agent_private_key || badStrField 40 r.wallet_address) = true) :
    MarketOrderRequest.parse r = .error .validationError := by
  simp [MarketOrderRequest.parse, base_parse_bad _ h]

theorem market_close_parse_bad (r : RawMarketClose)
    (h : (badStrField 32 r.agent_private_key || badStrField 40 r.wallet_address) = true) :
    MarketCloseRequest.parse r = .error .validationError := by
  simp [MarketCloseRequest.parse, base_parse_bad _ h]

theorem cancel_order_parse_bad (r : RawCancelOrder)
    (h : (badStrField 32 r.agent_private_key || badStrField 40 r.wallet_address) = true) :
    CancelOrderRequest.parse r = .error .validationError := by
  simp [CancelOrderRequest.parse, base_parse_bad _ h]

/-- C2: every request whose agent private key is a string of length < 32 or
whose wallet address is a string of length < 40, or whose base fields have
a wrong type or are missing, is rejected with the 422 validation error on
every endpoint, before any signing identity is constructed and before the
venue transport is invoked. -/
theorem c2_validation_rejects {R : Type} (venue : Exchange → VenueCall → R)
    (cfg : Config) (hdr : Option String) :
    (∀ raw : RawUpdateLeverage,
        (badStrField 32 raw.agent_private_key || badStrField 40 raw.wallet_address) = true →
        handle_update_leverage cfg venue raw hdr = .error .validationError) ∧
    (∀ raw : RawLimitOrder,
        (badStrField 32 raw.agent_private_key || badStrField 40 raw.wallet_address) = true →
        handle_order cfg venue raw hdr = .error .validationError) ∧
    (∀ raw : RawMarketOrder,
        (badStrField 32 raw.agent_private_key || badStrField 40 raw.wallet_address) = true →
        handle_market_open cfg venue raw hdr = .error .validationError) ∧
    (∀ raw : RawMarketClose,
        (badStrField 32 raw.agent_private_key || badStrField 40 raw.wallet_address) = true →
        handle_market_close cfg venue raw hdr = .error .validationError) ∧
    (∀ raw : RawCancelOrder,
        (badStrField 32 raw.agent_private_key || badStrField 40 raw.wallet_address) = true →
        handle_cancel cfg venue raw hdr = .error .validationError) ∧
    (∀ raw : RawBase,
        (badStrField 32 raw.agent_private_key || badStrField 40 raw.wallet_address) = true →
        handle_enable_dex cfg venue raw hdr = .error .validationError) := by
  refine ⟨?_, ?_, ?_, ?_, ?_, ?_⟩
  · intro raw hbad
    simp [handle_update_leverage, update_leverage_parse_bad raw hbad]
  · intro raw hbad
    simp [handle_order, limit_order_parse_bad raw hbad]
  · intro raw hbad
    simp [handle_market_open, market_order_parse_bad raw hbad]
  · intro raw hbad
    simp [handle_market_close, market_close_parse_bad raw hbad]
  · intro raw hbad
    simp [handle_cancel, cancel_order_parse_bad raw hbad]
  · intro raw hbad
    simp [handle_enable_dex, base_parse_bad raw hbad]

/-- Base payload with an agent key shorter than 32 characters. -/
def rawShortKeyBase : RawBase :=
  { agent_private_key := some (.s "deadbeef"), wallet_address := some (.s walletHex) }

/-- Base payload with a wallet address shorter than 40 characters. -/
def rawShortWalletBase : RawBase :=
  { agent_private_key := some (.s keyHex), wallet_address := some (.s "0x1234") }

/-- Base payload missing the agent key. -/
def rawMissingKeyBase : RawBase := { wallet_address := some (.s walletHex) }

/-- Base payload whose agent key has the wrong type. -/
def rawWrongKeyBase : RawBase :=
  { agent_private_key := some (.i 7), wallet_address := some (.s walletHex) }

/-- Base payload missing the wallet address. -/
def rawMissingWalletBase : RawBase := { agent_private_key := some (.s keyHex) }

/-- Base payload whose wallet address has the wrong type. -/
def rawWrongWalletBase : RawBase :=
  { agent_private_key := some (.s keyHex), wallet_address := some (.b true) }

/-- C2 witness: concrete invalid payloads, one per endpoint, covering short,
missing and wrongly typed base fields. -/
theorem c2_validation_rejects_witness :
    handle_update_leverage cfgOpen (fun (e : Exchange) (c : VenueCall) => (e, c))
      { toRawBase := rawShortKeyBase } none = .error .validationError ∧
    handle_order cfgOpen (fun e c => (e, c))
      { toRawBase := rawShortWalletBase } none = .error .validationError ∧
    handle_market_open cfgOpen (fun e c => (e, c))
      { toRawBase := rawMissingKeyBase } none = .error .validationError ∧
    handle_market_close cfgOpen (fun e c => (e, c))
      { toRawBase := rawWrongKeyBase } none = .error .validationError ∧
    handle_cancel cfgOpen (fun e c => (e, c))
      { toRawBase := rawMissingWalletBase } none = .error .validationError ∧
    handle_enable_dex cfgOpen (fun e c => (e, c))
      rawWrongWalletBase none = .error .validationError := by
  have h := c2_validation_rejects (R := Exchange × VenueCall) (fun e c => (e, c)) cfgOpen none
  exact ⟨h.1 _ (by decide), h.2.1 _ (by decide), h.2.2.1 _ (by decide),
    h.2.2.2.1 _ (by decide), h.2.2.2.2.1 _ (by decide), h.2.2.2.2.2 _ (by decide)⟩

theorem require_api_key_reject (cfg : Config) (hdr : Option String)
    (hkey : pyTruthy cfg.signerApiKey = true) (hne : hdr ≠ cfg.signerApiKey) :
    require_api_key cfg hdr = .error (.httpException 401 "Invalid signer API key") := by
  have hb : (hdr != cfg.signerApiKey) = true := bne_iff_ne.mpr hne
  simp [require_api_key, hkey, hb]

/-- C1 counterexample: with the shared key configured and the credential
header absent, a request whose body fails validation is rejected with the
422 validation error, not with Unauthorized 401 — so not every request with
a missing or mismatched header fails with 401. -/
theorem c1_counterexample :
    handle_order cfgAuth (fun (e : Exchange) (c : VenueCall) => (e, c))
      { toRawBase := rawShortKeyBase, coin := some (.s "BTC"), is_buy := some (.b true),
        size := some (.f 1), limit_px := some (.f 2) } none
      = .error .validationError ∧
    HError.status .validationError ≠ 401 :=
  ⟨rfl, by decide⟩

/-- C1 (amended): for every endpoint, when the shared API key is configured
(nonempty) and the request body passes validation, a credential header that
is absent or differs from the key makes the request fail with Unauthorized
401 before any signing identity is derived and before the venue transport
is invoked; a header equal to the configured key passes the gate. -/
theorem c1_auth_gate_unauthorized {R : Type} (venue : Exchange → VenueCall → R)
    (cfg : Config) (hdr : Option String)
    (hkey : pyTruthy cfg.signerApiKey = true) (hne : hdr ≠ cfg.signerApiKey) :
    (∀ (raw : RawUpdateLeverage) (r : UpdateLeverageRequest),
        UpdateLeverageRequest.parse raw = .ok r →
        handle_update_leverage cfg venue raw hdr
          = .error (.httpException 401 "Invalid signer API key")) ∧
    (∀ (raw : RawLimitOrder) (r : LimitOrderRequest),
        LimitOrderRequest.parse raw = .ok r →
        handle_order cfg venue raw hdr
          = .error (.httpException 401 "Invalid signer API key")) ∧
    (∀ (raw : RawMarketOrder) (r : MarketOrderRequest),
        MarketOrderRequest.parse raw = .ok r →
        handle_market_open cfg venue raw hdr
          = .error (.httpException 401 "Invalid signer API key")) ∧
    (∀ (raw : RawMarketClose) (r : MarketCloseRequest),
        MarketCloseRequest.parse raw = .ok r →
        handle_market_close cfg venue raw hdr
          = .error (.httpException 401 "Invalid signer API key")) ∧
    (∀ (raw : RawCancelOrder) (r : CancelOrderRequest),
        CancelOrderRequest.parse raw = .ok r →
        handle_cancel cfg venue raw hdr
          = .error (.httpException 401 "Invalid signer API key")) ∧
    (∀ (raw : RawBase) (r : BaseRequest),
        BaseRequest.parse raw = .ok r →
        handle_enable_dex cfg venue raw hdr
          = .error (.httpException 401 "Invalid signer API key")) ∧
    require_api_key cfg cfg.signerApiKey = .ok () := by
  have hq := require_api_key_reject cfg hdr hkey hne
  refine ⟨?_, ?_, ?_, ?_, ?_, ?_, ?_⟩
  · intro raw r hp
    simp [handle_update_leverage, hp, update_leverage, hq]
  · intro raw r hp
    simp [handle_order, hp, limit_order, hq]
  · intro raw r hp
    simp [handle_market_open, hp, market_open, hq]
  · intro raw r hp
    simp [handle_market_close, hp, market_close, hq]
  · intro raw r hp
    simp [handle_cancel, hp, cancel, hq]
  · intro raw r hp
    simp [handle_enable_dex, hp, enable_dex_abstraction, hq]
  · simp [require_api_key]

/-- C1 witness: with key "secret" configured and no header, each endpoint
rejects a valid payload with 401; the matching header passes the gate. -/
theorem c1_auth_gate_unauthorized_witness :
    handle_update_leverage cfgAuth (fun (e : Exchange) (c : VenueCall) => (e, c)) rawUL none
      = .error (.httpException 401 "Invalid signer API key") ∧
    handle_order cfgAuth (fun e c => (e, c)) rawLO none
      = .error (.httpException 401 "Invalid signer API key") ∧
    handle_market_open cfgAuth (fun e c => (e, c)) rawMO none
      = .error (.httpException 401 "Invalid signer API key") ∧
    handle_market_close cfgAuth (fun e c => (e, c)) rawMC none
      = .error (.httpException 401 "Invalid signer API key") ∧
    handle_cancel cfgAuth (fun e c => (e, c)) rawCA none
      = .error (.httpException 401 "Invalid signer API key") ∧
    handle_enable_dex cfgAuth (fun e c => (e, c)) rawBaseOk none
      = .error (.httpException 401 "Invalid signer API key") ∧
    require_api_key cfgAuth cfgAuth.signerApiKey = .ok () := by
  have h := c1_auth_gate_unauthorized (R := Exchange × VenueCall) (fun e c => (e, c))
    cfgAuth none (by decide) (by decide)
  exact ⟨h.1 rawUL _ rfl, h.2.1 rawLO _ rfl, h.2.2.1 rawMO _ rfl, h.2.2.2.1 rawMC _ rfl,
    h.2.2.2.2.1 rawCA _ rfl, h.2.2.2.2.2.1 rawBaseOk _ rfl, h.2.2.2.2.2.2⟩

theorem handle_order_ok_shape (cfg : Config) (raw : RawLimitOrder) (hdr : Option String)
    (p : Exchange × VenueCall)
    (h : handle_order cfg (fun e c => (e, c)) raw hdr = .ok p) :
    ∃ r, LimitOrderRequest.parse raw = .ok r ∧
      p = (get_exchange cfg r.agent_private_key r.wallet_address,
        .order r.coin r.is_buy r.size r.limit_px { limit := { tif := r.tif } }
          r.reduce_only (get_builder cfg)) := by
  unfold handle_order at h
  cases hp : LimitOrderRequest.parse raw with
  | error e => rw [hp] at h; simp at h
  | ok r =>
    rw [hp, ok_bind] at h
    unfold limit_order at h
    cases hq : require_api_key cfg hdr with
    | error e => rw [hq] at h; simp at h
    | ok u =>
      cases u
      rw [hq, ok_bind] at h
      simp only [pure_eq_ok, Except.ok.injEq] at h
      exact ⟨r, rfl, h.symm⟩

theorem handle_market_open_ok_shape (cfg : Config) (raw : RawMarketOrder) (hdr : Option String)
    (p : Exchange × VenueCall)
    (h : handle_market_open cfg (fun e c => (e, c)) raw hdr = .ok p) :
    ∃ r, MarketOrderRequest.parse raw = .ok r ∧
      p = (get_exchange cfg r.agent_private_key r.wallet_address,
        .market_open r.coin r.is_buy r.size r.px r.slippage (get_builder cfg)) := by
  unfold handle_market_open at h
  cases hp : MarketOrderRequest.parse raw with
  | error e => rw [hp] at h; simp at h
  | ok r =>
    rw [hp, ok_bind] at h
    unfold market_open at h
    cases hq : require_api_key cfg hdr with
    | error e => rw [hq] at h; simp at h
    | ok u =>
      cases u
      rw [hq, ok_bind] at h
      simp only [pure_eq_ok, Except.ok.injEq] at h
      exact ⟨r, rfl, h.symm⟩

theorem handle_market_close_ok_shape (cfg : Config) (raw : RawMarketClose) (hdr : Option String)
    (p : Exchange × VenueCall)
    (h : handle_market_close cfg (fun e c => (e, c)) raw hdr = .ok p) :
    ∃ r, MarketCloseRequest.parse raw = .ok r ∧
      p = (get_exchange cfg r.agent_private_key r.wallet_address,
        .market_close r.coin r.size r.px r.slippage (get_builder cfg)) := by
  unfold handle_market_close at h
  cases hp : MarketCloseRequest.parse raw with
  | error e => rw [hp] at h; simp at h
  | ok r =>
    rw [hp, ok_bind] at h
    unfold market_close at h
    cases hq : require_api_key cfg hdr with
    | error e => rw [hq] at h; simp at h
    | ok u =>
      cases u
      rw [hq, ok_bind] at h
      simp only [pure_eq_ok, Except.ok.injEq] at h
      exact ⟨r, rfl, h.symm⟩

/-- C3: the fee-share accessor yields the lower-cased recipient and the
configured rate exactly when the recipient is set and differs from the
documented placeholder, and yields nothing otherwise; every successful
limit-order, market-open and market-close request passes exactly the
accessor's current value as the builder argument of the venue call. -/
theorem c3_fee_share_config (cfg : Config) (hdr : Option String) :
    ((cfg.builderAddress ≠ "" ∧
      cfg.builderAddress ≠ "0x...your_builder_wallet_address") →
        get_builder cfg
          = some { b := cfg.builderAddress.toLower, f := cfg.builderFeeBps }) ∧
    ((cfg.builderAddress = "" ∨
      cfg.builderAddress = "0x...your_builder_wallet_address") →
        get_builder cfg = none) ∧
    (∀ (raw : RawLimitOrder) (p : Exchange × VenueCall),
        handle_order cfg (fun e c => (e, c)) raw hdr = .ok p →
        p.2.builderOf = some (get_builder cfg)) ∧
    (∀ (raw : RawMarketOrder) (p : Exchange × VenueCall),
        handle_market_open cfg (fun e c => (e, c)) raw hdr = .ok p →
        p.2.builderOf = some (get_builder cfg)) ∧
    (∀ (raw : RawMarketClose) (p : Exchange × VenueCall),
        handle_market_close cfg (fun e c => (e, c)) raw hdr = .ok p →
        p.2.builderOf = some (get_builder cfg)) := by
  refine ⟨?_, ?_, ?_, ?_, ?_⟩
  · rintro ⟨h1, h2⟩
    have b1 : (cfg.builderAddress != "") = true := bne_iff_ne.mpr h1
    have b2 : (cfg.builderAddress != "0x...your_builder_wallet_address") = true :=
      bne_iff_ne.mpr h2
    simp [get_builder, b1, b2]
  · rintro (h1 | h2)
    · simp [get_builder, h1]
    · simp [get_builder, h2]
  · intro raw p h
    obtain ⟨r, _, hpe⟩ := handle_order_ok_shape cfg raw hdr p h
    rw [hpe]
    rfl
  · intro raw p h
    obtain ⟨r, _, hpe⟩ := handle_market_open_ok_shape cfg raw hdr p h
    rw [hpe]
    rfl
  · intro raw p h
    obtain ⟨r, _, hpe⟩ := handle_market_close_ok_shape cfg raw hdr p h
    rw [hpe]
    rfl

/-- The exchange identity and venue call produced by the concrete limit
order `rawLO` under `cfgBuilder`. -/
def pLO : Exchange × VenueCall :=
  (get_exchange cfgBuilder keyHex walletHex,
   .order "BTC" true (3/2) 50000 { limit := { tif := "Gtc" } } false (get_builder cfgBuilder))

/-- C3 witness: concrete configurations with a real recipient, the
placeholder, and no recipient, and a concrete limit order carrying the
accessor's value. -/
theorem c3_fee_share_config_witness :
    get_builder cfgBuilder
      = some { b := cfgBuilder.builderAddress.toLower, f := 100 } ∧
    get_builder cfgPlaceholder = none ∧
    get_builder cfgOpen = none ∧
    VenueCall.builderOf pLO.2 = some (get_builder cfgBuilder) := by
  have hB := c3_fee_share_config cfgBuilder none
  have hP := c3_fee_share_config cfgPlaceholder none
  have hO := c3_fee_share_config cfgOpen none
  exact ⟨hB.1 ⟨by decide, by decide⟩, hP.2.1 (Or.inr rfl), hO.2.1 (Or.inl rfl),
    hB.2.2.1 rawLO pLO rfl⟩

/-- C5: for the concrete limit-order scenario (coin "BTC", buy, size 1.5,
limit price 50000, valid credentials, no API key configured), the venue
capability receives the order descriptor with time-in-force defaulting to
"Gtc" and reduce-only defaulting to false, and the handler's result is the
venue's return value unmodified. -/
theorem c5_limit_order_pass_through {R : Type} (venue : Exchange → VenueCall → R) :
    handle_order cfgOpen venue rawLO none
      = .ok (venue (get_exchange cfgOpen keyHex walletHex)
          (.order "BTC" true (3/2) 50000 { limit := { tif := "Gtc" } } false none)) :=
  rfl

/-- C6: every successful market-close request whose size field is omitted
passes sz = None through to the venue's market-close capability. -/
theorem c6_market_close_omitted_size (cfg : Config) (hdr : Option String)
    (raw : RawMarketClose) (p : Exchange × VenueCall) (hsz : raw.size = none)
    (h : handle_market_close cfg (fun e c => (e, c)) raw hdr = .ok p) :
    p.2.closeSizeOf = some none := by
  obtain ⟨r, hp, hpe⟩ := handle_market_close_ok_shape cfg raw hdr p h
  have hr : r.size = none := by
    unfold MarketCloseRequest.parse at hp
    rw [hsz] at hp
    cases hb : BaseRequest.parse raw.toRawBase with
    | error e => rw [hb] at hp; simp at hp
    | ok base =>
      rw [hb, ok_bind] at hp
      cases hc : fieldStr 0 raw.coin with
      | error e => rw [hc] at hp; simp at hp
      | ok coin =>
        rw [hc, ok_bind] at hp
        rw [show fieldFloatOpt none = (Except.ok none : Except HError (Option ℚ)) from rfl,
          ok_bind] at hp
        cases hs : fieldFloatD (1/100) raw.slippage with
        | error e => rw [hs] at hp; simp at hp
        | ok slip =>
          rw [hs, ok_bind] at hp
          cases hx : fieldFloatOpt raw.px with
          | error e => rw [hx] at hp; simp at hp
          | ok px =>
            rw [hx, ok_bind] at hp
            simp only [pure_eq_ok, Except.ok.injEq] at hp
            rw [← hp]
  rw [hpe]
  simp [VenueCall.closeSizeOf, hr]

/-- The exchange identity and venue call produced by the concrete
market-close request `rawMC` (size omitted) under `cfgOpen`. -/
def pMC : Exchange × VenueCall :=
  (get_exchange cfgOpen keyHex walletHex, .market_close "BTC" none none (1/100) none)

/-- C6 witness: the concrete market-close request with size omitted. -/
theorem c6_market_close_omitted_size_witness :
    VenueCall.closeSizeOf pMC.2 = some none :=
  c6_market_close_omitted_size cfgOpen none rawMC pMC rfl rfl

end Signer
